import Mathlib

/-!
Verification development for the Smart Research Assistant frontend
(components ChatInterface.tsx, DocumentList.tsx, DocumentUpload.tsx and
app/page.tsx), shallowly embedded in Lean 4.  The backend pieces the
frontend talks to (RagService, DocumentStore, upload and list endpoints)
are not part of the source tree; where a property depends on them they
are modelled from the specification, with a doc comment saying so.
-/

namespace SRA

/-- A cited source entry as delivered inside a chat response and stored on
an assistant `Message` (ChatInterface.tsx, the `sources` field of the
`Message` type). -/
structure Source where
  source : String
  page : Nat
  snippet : String
deriving Repr, DecidableEq

/-- The `role` field of a chat `Message` (a string union in the source). -/
inductive Role
  | user
  | assistant
deriving Repr, DecidableEq

/-- A chat message as kept in the `messages` state of ChatInterface
(`type Message` in ChatInterface.tsx and page.tsx). -/
structure Message where
  role : Role
  content : String
  sources : Option (List Source) := none
deriving Repr, DecidableEq

/-- The React state of `ChatInterface`: `messages`, `input`, `loading`
and `showSources` (the Show sources in responses toggle). -/
structure ChatState where
  messages : List Message
  input : String
  loading : Bool
  showSources : Bool
deriving Repr, DecidableEq

/-- JS `String.prototype.trim` as the source calls it on `input`:
strips leading and trailing whitespace characters. -/
def jsTrim (s : String) : String :=
  String.mk
    (((s.data.dropWhile Char.isWhitespace).reverse.dropWhile Char.isWhitespace).reverse)

/-- Initial state of `ChatInterface` when mounted with no initial
messages: `useState([])`, `useState('')`, `useState(false)`,
`useState(true)`. -/
def initialChatState : ChatState :=
  { messages := [], input := "", loading := false, showSources := true }

/-- The body posted to the chat endpoint by `handleSubmit`:
`{question: input.trim(), include_sources: showSources}`. -/
structure ChatRequest where
  question : String
  include_sources : Bool
deriving Repr, DecidableEq

/-- A chat endpoint response body as consumed by `handleSubmit`
(`response.data.answer`, `response.data.sources`). -/
structure ChatResponse where
  answer : String
  sources : Option (List Source) := none
deriving Repr, DecidableEq

/-- The synchronous head of `handleSubmit` in ChatInterface.tsx, up to the
HTTP call: the guard `if (!input.trim() || loading) return` issues no
request and leaves the state untouched; otherwise the user message is
appended, the input cleared, `loading` set, and the request
`{question: input.trim(), include_sources: showSources}` is issued. -/
def handleSubmitStart (s : ChatState) : ChatState × Option ChatRequest :=
  if jsTrim s.input = "" ∨ s.loading then (s, none)
  else
    ({ s with
        messages := s.messages ++ [{ role := .user, content := s.input }],
        input := "",
        loading := true },
     some { question := jsTrim s.input, include_sources := s.showSources })

/-- The success continuation of `handleSubmit`: the assistant message
built from `response.data` is appended and (in `finally`) `loading` is
cleared.  Applied to the state produced by `handleSubmitStart`, whose
`messages` equal the `updatedMessages` array the closure captured. -/
def handleSubmitSuccess (r : ChatResponse) (s : ChatState) : ChatState :=
  { s with
      messages :=
        s.messages ++ [{ role := .assistant, content := r.answer, sources := r.sources }],
      loading := false }

/-- The fixed assistant text shown by the `catch` branch of
`handleSubmit`. -/
def chatErrorText : String :=
  "Sorry, there was an error processing your question. Please try again."

/-- The error continuation of `handleSubmit` (the `catch` branch plus
`finally`): one assistant message with the fixed error text is appended
to `updatedMessages` and `loading` is cleared. -/
def handleSubmitError (s : ChatState) : ChatState :=
  { s with
      messages := s.messages ++ [{ role := .assistant, content := chatErrorText }],
      loading := false }

/-- `handleSummarize` in app/page.tsx: the page message state is set to a
fresh pair of messages, ignoring whatever was there before. -/
def handleSummarizePage (oldMessages : List Message) (summary : String) : List Message :=
  let _ := oldMessages
  [ { role := .user, content := "Please summarize this document." },
    { role := .assistant, content := summary } ]

/-- The `useEffect` of ChatInterface on `initialMessages`: when the prop
is non-empty the chat message state is replaced by it, otherwise the
current messages stay. -/
def applyInitialMessages (initialMessages current : List Message) : List Message :=
  if initialMessages.length > 0 then initialMessages else current

/-- A summarize endpoint response body as consumed by `handleSummarize`
in DocumentList.tsx (`response.data.summary`). -/
structure SummarizeResponse where
  summary : String
deriving Repr, DecidableEq

/-- The success path of `handleSummarize` in DocumentList.tsx: the value
passed to the `onSummarize` callback is `response.data.summary`. -/
def handleSummarizeSuccess (r : SummarizeResponse) : String :=
  r.summary

/-- End-to-end effect of a successful summarize on the chat message list:
DocumentList passes the summary to page.tsx's `handleSummarize`, which
replaces the page message state; ChatInterface's effect on
`initialMessages` then replaces its own message state. -/
def chatMessagesAfterSummarize
    (pageMessages chatMessages : List Message) (r : SummarizeResponse) : List Message :=
  applyInitialMessages (handleSummarizePage pageMessages (handleSummarizeSuccess r))
    chatMessages

/-- The page number the chat interface prints for a cited source entry:
ChatInterface.tsx renders `(Page {source.page + 1})`. -/
def displayedPageNumber (s : Source) : Nat :=
  s.page + 1

/-- One rendered source entry in the Sources section of an assistant
message: heading line `{source.source} (Page {source.page + 1})` and the
snippet line. -/
structure SourceView where
  heading : String
  snippetText : String
deriving Repr, DecidableEq

/-- The view built for one source entry by the `message.sources.map`
callback in ChatInterface.tsx. -/
def sourceView (s : Source) : SourceView :=
  { heading := s.source ++ " (Page " ++ toString (displayedPageNumber s) ++ ")",
    snippetText := s.snippet }

/-- The Sources section rendered under a chat message: present exactly
when `message.role === 'assistant' && message.sources &&
message.sources.length > 0`, and then maps over `message.sources` in
array order. -/
def renderSourcesSection (m : Message) : Option (List SourceView) :=
  match m.role, m.sources with
  | .assistant, some ss =>
      if ss.length > 0 then some (ss.map sourceView) else none
  | _, _ => none

/-- The `Document` type of DocumentList.tsx: one value of the mapping
returned by the documents endpoint. -/
structure Document where
  filename : String
  num_pages : Nat
deriving Repr, DecidableEq

/-- Modelled from the spec: the List documents operation's output, a
mapping of document id to `\x7bfilename, num_pages\x7d` (§6); the endpoint
itself is not in the source tree.  The mapping is embedded as an
association list in the enumeration order `Object.entries` exposes. -/
structure DocumentsResponse where
  entries : List (String × Document)
deriving Repr, DecidableEq

/-- One rendered card of the document list: the id used as React key,
the filename line and the `{num_pages} pages` line. -/
structure DocumentCard where
  id : String
  filenameText : String
  pagesText : String
deriving Repr, DecidableEq

/-- The card list rendered by DocumentList.tsx:
`Object.entries(documents).map(([id, doc]) => ...)`. -/
def renderDocumentList (docs : DocumentsResponse) : List DocumentCard :=
  docs.entries.map fun p =>
    { id := p.1,
      filenameText := p.2.filename,
      pagesText := toString p.2.num_pages ++ " pages" }

/-- Modelled from the spec: the Upload operation's success output
`\x7bfilename, num_chunks\x7d` (§6); the endpoint itself is not in the source
tree.  The frontend reads exactly `response.data.filename` and
`response.data.num_chunks`. -/
structure UploadResponse where
  filename : String
  num_chunks : Nat
deriving Repr, DecidableEq

/-- The `uploadStatus` state of DocumentUpload.tsx. -/
structure UploadStatus where
  success : Bool
  message : String
deriving Repr, DecidableEq

/-- The status set by `onDrop` in DocumentUpload.tsx once the POST to the
upload endpoint settles: the success branch interpolates the response's
`filename` and `num_chunks` into the fixed sentence, the catch branch
sets the fixed failure sentence. -/
def onDropStatus (outcome : Except Unit UploadResponse) : UploadStatus :=
  match outcome with
  | .ok r =>
      { success := true,
        message := "Successfully processed " ++ r.filename ++ " with "
          ++ toString r.num_chunks ++ " text chunks" }
  | .error _ =>
      { success := false,
        message := "Error uploading document. Please try again." }

/-- A dropped file as the dropzone sees it: name and MIME type. -/
structure FileInfo where
  name : String
  mime : String
deriving Repr, DecidableEq

/-- The `useDropzone` configuration of DocumentUpload.tsx:
`accept: \x7b'application/pdf': ['.pdf']\x7d, maxFiles: 1`. -/
structure DropzoneConfig where
  acceptMime : List (String × List String)
  maxFiles : Nat
deriving Repr, DecidableEq

/-- The configuration passed to `useDropzone` in DocumentUpload.tsx. -/
def uploadDropzoneConfig : DropzoneConfig :=
  { acceptMime := [("application/pdf", [".pdf"])], maxFiles := 1 }

/-- File-name extension check: the name ends in the given extension. -/
def nameEndsWith (name ext : String) : Bool :=
  ext.data.isSuffixOf name.data

/-- react-dropzone's accept check (the attr-accept rule the library
documents): a file matches when its MIME type equals an accept key or its
name ends in one of the listed extensions. -/
def dropzoneMatches (cfg : DropzoneConfig) (f : FileInfo) : Bool :=
  cfg.acceptMime.any fun p => f.mime = p.1 || p.2.any fun e => nameEndsWith f.name e

/-- react-dropzone's drop handling as documented: files failing the
accept check become rejections, and when more than `maxFiles` files
match, the whole drop is rejected; `onDrop` receives the accepted
files. -/
def dropzoneAcceptedFiles (cfg : DropzoneConfig) (files : List FileInfo) : List FileInfo :=
  if (files.filter (dropzoneMatches cfg)).length ≠ files.length
      ∨ (files.filter (dropzoneMatches cfg)).length > cfg.maxFiles then []
  else files.filter (dropzoneMatches cfg)

/-- The file `onDrop` uploads: it returns early on an empty accepted
list and otherwise posts `acceptedFiles[0]`. -/
def onDropUploadedFile (cfg : DropzoneConfig) (files : List FileInfo) : Option FileInfo :=
  (dropzoneAcceptedFiles cfg files).head?

/-- A file counts as PDF input when its MIME type is application/pdf or
its name carries the .pdf extension. -/
def isPdfFile (f : FileInfo) : Bool :=
  f.mime = "application/pdf" || nameEndsWith f.name ".pdf"

/-- Modelled from the spec: a chunk's retrieval metadata
`(document_id, chunk_index, page_number, snippet)` (§3, VectorIndex
entry); the backend store is not in the source tree. -/
structure Chunk where
  document_id : String
  chunk_index : Nat
  page_number : Nat
  text : String
deriving Repr, DecidableEq

/-- Modelled from the spec: the collaborators RagService.ask uses (§4.6)
— the corpus of ingested document ids, filename lookup, the session
Embedder, DocumentStore.search over the whole corpus, and
Generator.answer — none of which are in the source tree.  Vectors are
kept abstract in the type `V`. -/
structure RagEnv (V : Type) where
  documents : List String
  filenameOf : String → String
  embed : String → V
  search : V → Nat → List Chunk
  generate : String → List Chunk → String

/-- Modelled from the spec: the fixed "no documents available" answer
RagService.ask returns on an empty corpus (§4.6). -/
def noDocumentsAnswer : String :=
  "No documents available. Please upload a document first."

/-- The result of one `ask` call, with the number of Generator
invocations made during the call recorded for the call-count
assertion. -/
structure AskResult where
  answer : String
  sources : Option (List Source)
  generatorCalls : Nat
deriving Repr, DecidableEq

/-- The default retrieval depth `k = 4` (§4.3). -/
def defaultK : Nat := 4

/-- Modelled from the spec: RagService.ask (§4.6).  On an empty corpus it
returns the fixed "no documents available" answer without calling the
Generator; otherwise it embeds the question, retrieves the top-k chunks,
calls Generator.answer once, and — if `include_sources` — attaches each
retrieved chunk's `\x7bsource filename, page, snippet\x7d` in retrieval rank
order. -/
def ask {V : Type} (env : RagEnv V) (question : String) (includeSources : Bool) :
    AskResult :=
  if env.documents.isEmpty then
    { answer := noDocumentsAnswer, sources := none, generatorCalls := 0 }
  else
    let chunks := env.search (env.embed question) defaultK
    { answer := env.generate question chunks,
      sources :=
        if includeSources then
          some (chunks.map fun c =>
            { source := env.filenameOf c.document_id,
              page := c.page_number,
              snippet := c.text })
        else none,
      generatorCalls := 1 }

/-- The observable session around one chat interface: its React state
plus the number of chat HTTP requests currently in flight. -/
structure SessionState where
  chat : ChatState
  pending : Nat
deriving Repr, DecidableEq

/-- The events that drive the chat interface: a form submission, a
response arriving, a request failing. -/
inductive ChatEvent
  | submit
  | resolve (r : ChatResponse)
  | reject

/-- One step of the chat session.  A submission runs
`handleSubmitStart`; when it issues a request the in-flight count rises.
A resolve or reject settles one in-flight request through the success or
error continuation and lowers the count. -/
def stepChat (e : ChatEvent) (st : SessionState) : SessionState :=
  match e with
  | .submit =>
      match handleSubmitStart st.chat with
      | (c, none) => { st with chat := c }
      | (c, some _) => { chat := c, pending := st.pending + 1 }
  | .resolve r =>
      if st.pending = 0 then st
      else { chat := handleSubmitSuccess r st.chat, pending := st.pending - 1 }
  | .reject =>
      if st.pending = 0 then st
      else { chat := handleSubmitError st.chat, pending := st.pending - 1 }

/-- The single-flight invariant of the chat interface: at most one chat
request is in flight, and `loading` is set exactly while one is. -/
def ChatInvariant (st : SessionState) : Prop :=
  st.pending ≤ 1 ∧ (st.chat.loading = true ↔ st.pending = 1)

instance (st : SessionState) : Decidable (ChatInvariant st) := by
  unfold ChatInvariant; infer_instance

/-- The session as mounted: fresh chat state, nothing in flight. -/
def initialSession : SessionState :=
  { chat := initialChatState, pending := 0 }

/-- C1: the chat interface does not display the 1-based page number the
API declares: ChatInterface.tsx renders `source.page + 1`, so a source
entry carrying the declared 1-based page 1 (the spec's sky example,
`sources[0].page == 1`) is displayed as Page 2, not Page 1. -/
theorem c1_displayed_page_off_by_one :
    displayedPageNumber { source := "sky.pdf", page := 1, snippet := "The sky is blue." } = 2 ∧
    sourceView { source := "sky.pdf", page := 1, snippet := "The sky is blue." } =
      { heading := "sky.pdf (Page 2)", snippetText := "The sky is blue." } ∧
    displayedPageNumber { source := "sky.pdf", page := 1, snippet := "The sky is blue." } ≠ 1 := by
  refine ⟨rfl, by decide, by decide⟩

/-- C2: on an empty corpus, `ask` returns the fixed "no documents
available" answer, attaches no sources, and never invokes the
Generator. -/
theorem c2_empty_corpus_no_generator {V : Type} (env : RagEnv V)
    (question : String) (includeSources : Bool) (h : env.documents = []) :
    ask env question includeSources =
      { answer := noDocumentsAnswer, sources := none, generatorCalls := 0 } := by
  simp [ask, h]

theorem c2_empty_corpus_no_generator_witness :
    ask (V := Nat)
      { documents := [], filenameOf := fun _ => "", embed := fun _ => 0,
        search := fun _ _ => [], generate := fun _ _ => "answer" }
      "What color is the sky?" true =
      { answer := noDocumentsAnswer, sources := none, generatorCalls := 0 } :=
  c2_empty_corpus_no_generator _ "What color is the sky?" true rfl

/-- C3: after a successful summarize, the chat message list is exactly
the fixed user message followed by the assistant message carrying the
returned summary, whatever was displayed before. -/
theorem c3_summarize_replaces_chat
    (pageMessages chatMessages : List Message) (r : SummarizeResponse) :
    chatMessagesAfterSummarize pageMessages chatMessages r =
      [ { role := .user, content := "Please summarize this document." },
        { role := .assistant, content := r.summary } ] ∧
    (chatMessagesAfterSummarize pageMessages chatMessages r).length = 2 := by
  constructor <;>
    simp [chatMessagesAfterSummarize, applyInitialMessages, handleSummarizePage,
      handleSummarizeSuccess]

/-- C4: a submission with non-whitespace input posts
`{question: input.trim(), include_sources: showSources}`, and the
Show sources toggle starts out true. -/
theorem c4_request_body (s : ChatState)
    (hin : jsTrim s.input ≠ "") (hld : s.loading = false) :
    (handleSubmitStart s).2 =
      some { question := jsTrim s.input, include_sources := s.showSources } ∧
    initialChatState.showSources = true := by
  refine ⟨?_, rfl⟩
  simp [handleSubmitStart, hin, hld]

theorem c4_request_body_witness :
    (handleSubmitStart
        { messages := [], input := " What color is the sky? ",
          loading := false, showSources := true }).2 =
      some { question := "What color is the sky?", include_sources := true } ∧
    initialChatState.showSources = true :=
  c4_request_body
    { messages := [], input := " What color is the sky? ",
      loading := false, showSources := true }
    (by decide) rfl

/-- C5: when the chat request fails, the user message stays, exactly one
assistant message with the fixed error text is appended, and `loading`
is cleared. -/
theorem c5_error_path (s : ChatState)
    (hin : jsTrim s.input ≠ "") (hld : s.loading = false) :
    (handleSubmitError (handleSubmitStart s).1).messages =
      s.messages ++ [ { role := .user, content := s.input },
                      { role := .assistant, content := chatErrorText } ] ∧
    (handleSubmitError (handleSubmitStart s).1).loading = false := by
  simp [handleSubmitStart, handleSubmitError, hin, hld]

theorem c5_error_path_witness :
    (handleSubmitError (handleSubmitStart
        { messages := [], input := "q", loading := false, showSources := true }).1).messages =
      [ { role := .user, content := "q" },
        { role := .assistant, content := chatErrorText } ] ∧
    (handleSubmitError (handleSubmitStart
        { messages := [], input := "q", loading := false, showSources := true }).1).loading
      = false :=
  c5_error_path { messages := [], input := "q", loading := false, showSources := true }
    (by decide) rfl

/-- C6: the Sources section of an assistant message with a non-empty
sources array shows one entry per source in array order — filename with
page in the heading, snippet below — and no section is rendered when the
array is absent or empty. -/
theorem c6_sources_rendering (m : Message) :
    (∀ ss, m.role = .assistant → m.sources = some ss → ss ≠ [] →
        renderSourcesSection m = some (ss.map sourceView) ∧
        ∀ i : Nat, (ss.map sourceView)[i]? = (ss[i]?).map sourceView) ∧
    (m.sources = none → renderSourcesSection m = none) ∧
    (m.sources = some [] → renderSourcesSection m = none) := by
  obtain ⟨role, content, sources⟩ := m
  refine ⟨?_, ?_, ?_⟩
  · rintro ss hrole rfl hne
    subst hrole
    refine ⟨?_, ?_⟩
    · simp [renderSourcesSection, List.length_pos.mpr hne]
    · intro i
      simp
  · rintro rfl
    cases role <;> rfl
  · rintro rfl
    cases role <;> rfl

theorem c6_sources_rendering_witness :
    renderSourcesSection
      { role := .assistant, content := "The sky is blue.",
        sources := some [ { source := "sky.pdf", page := 0, snippet := "The sky is blue." } ] }
      = some [ sourceView { source := "sky.pdf", page := 0, snippet := "The sky is blue." } ] :=
  ((c6_sources_rendering _).1
    [ { source := "sky.pdf", page := 0, snippet := "The sky is blue." } ]
    rfl rfl (by decide)).1

/-- C7: the success branch of `onDrop` reports exactly the `filename`
and `num_chunks` fields of the upload response in the fixed sentence,
with a success status. -/
theorem c7_upload_success_status (r : UploadResponse) :
    onDropStatus (.ok r) =
      { success := true,
        message := "Successfully processed " ++ r.filename ++ " with "
          ++ toString r.num_chunks ++ " text chunks" } := rfl

/-- C8: the document list renders exactly one card per id of the List
documents mapping, in enumeration order, showing that document's
filename and page count. -/
theorem c8_document_list (docs : DocumentsResponse) :
    (renderDocumentList docs).length = docs.entries.length ∧
    ∀ i : Nat, (renderDocumentList docs)[i]? =
      (docs.entries[i]?).map fun p =>
        { id := p.1, filenameText := p.2.filename,
          pagesText := toString p.2.num_pages ++ " pages" } := by
  constructor
  · simp [renderDocumentList]
  · intro i
    simp [renderDocumentList]

/-- C9: with the upload dropzone configuration, at most one file is
accepted per drop, `maxFiles` is 1, and any file `onDrop` uploads is PDF
input (application/pdf MIME type or .pdf extension), so no non-PDF input
reaches the upload endpoint from this interface. -/
theorem c9_pdf_only_single_file (files : List FileInfo) :
    (dropzoneAcceptedFiles uploadDropzoneConfig files).length ≤ 1 ∧
    uploadDropzoneConfig.maxFiles = 1 ∧
    ∀ f, onDropUploadedFile uploadDropzoneConfig files = some f → isPdfFile f = true := by
  have hmatch : ∀ f : FileInfo,
      dropzoneMatches uploadDropzoneConfig f = true → isPdfFile f = true := by
    intro f hf
    simpa [dropzoneMatches, uploadDropzoneConfig, isPdfFile] using hf
  have hsub : ∀ f ∈ dropzoneAcceptedFiles uploadDropzoneConfig files,
      dropzoneMatches uploadDropzoneConfig f = true := by
    intro f hf
    unfold dropzoneAcceptedFiles at hf
    split at hf
    · simp at hf
    · exact List.of_mem_filter hf
  have hlen : (dropzoneAcceptedFiles uploadDropzoneConfig files).length ≤ 1 := by
    unfold dropzoneAcceptedFiles
    split
    · simp
    · next h =>
        push_neg at h
        exact h.2
  refine ⟨hlen, rfl, ?_⟩
  intro f hf
  exact hmatch f (hsub f (List.mem_of_mem_head? hf))

theorem c9_pdf_only_single_file_witness :
    onDropUploadedFile uploadDropzoneConfig
        [ { name := "paper.pdf", mime := "application/pdf" } ] =
      some { name := "paper.pdf", mime := "application/pdf" } ∧
    isPdfFile { name := "paper.pdf", mime := "application/pdf" } = true :=
  ⟨by decide,
   (c9_pdf_only_single_file [ { name := "paper.pdf", mime := "application/pdf" } ]).2.2
     { name := "paper.pdf", mime := "application/pdf" } (by decide)⟩

/-- C10: a submission with empty or whitespace-only input, or while a
request is loading, changes nothing and issues no request; the
single-flight invariant (at most one chat request in flight, `loading`
set exactly while one is) holds initially and is preserved by every
chat event. -/
theorem c10_single_flight :
    (∀ s : ChatState, (jsTrim s.input = "" ∨ s.loading = true) →
        handleSubmitStart s = (s, none)) ∧
    (∀ (e : ChatEvent) (st : SessionState),
        ChatInvariant st → ChatInvariant (stepChat e st)) ∧
    ChatInvariant initialSession := by
  refine ⟨?_, ?_, by decide⟩
  · intro s h
    unfold handleSubmitStart
    rw [if_pos h]
  · intro e st hinv
    obtain ⟨hle, hiff⟩ := hinv
    cases e with
    | submit =>
        by_cases hg : jsTrim st.chat.input = "" ∨ st.chat.loading = true
        · have hstart : handleSubmitStart st.chat = (st.chat, none) := by
            unfold handleSubmitStart
            rw [if_pos hg]
          simp only [stepChat, hstart]
          exact ⟨hle, hiff⟩
        · have hld : st.chat.loading = false := by
            cases hl : st.chat.loading
            · rfl
            · exact absurd (Or.inr hl) hg
          have hp0 : st.pending = 0 := by
            have hne : ¬ st.pending = 1 := fun h1 => by
              simp [hiff.mpr h1] at hld
            omega
          have hstart : handleSubmitStart st.chat =
              ({ st.chat with
                  messages :=
                    st.chat.messages ++ [{ role := .user, content := st.chat.input }],
                  input := "", loading := true },
                some { question := jsTrim st.chat.input,
                       include_sources := st.chat.showSources }) := by
            unfold handleSubmitStart
            rw [if_neg hg]
          simp only [stepChat, hstart]
          refine ⟨?_, by simp [hp0]⟩
          show st.pending + 1 ≤ 1
          omega
    | resolve r =>
        by_cases hp : st.pending = 0
        · simp only [stepChat, if_pos hp]
          exact ⟨hle, hiff⟩
        · have hp1 : st.pending = 1 := by omega
          simp only [stepChat, if_neg hp]
          refine ⟨?_, by simp [handleSubmitSuccess, hp1]⟩
          show st.pending - 1 ≤ 1
          omega
    | reject =>
        by_cases hp : st.pending = 0
        · simp only [stepChat, if_pos hp]
          exact ⟨hle, hiff⟩
        · have hp1 : st.pending = 1 := by omega
          simp only [stepChat, if_neg hp]
          refine ⟨?_, by simp [handleSubmitError, hp1]⟩
          show st.pending - 1 ≤ 1
          omega

theorem c10_single_flight_witness :
    handleSubmitStart { messages := [], input := "   ", loading := false, showSources := true } =
      ({ messages := [], input := "   ", loading := false, showSources := true }, none) ∧
    ChatInvariant (stepChat .submit initialSession) :=
  ⟨c10_single_flight.1
      { messages := [], input := "   ", loading := false, showSources := true }
      (Or.inl (by decide)),
   c10_single_flight.2.1 .submit initialSession (by decide)⟩

end SRA
